import Mathlib

/-!
Shallow embedding of src/application.py, a single-script Streamlit
application that loads uploaded CSV files into pandas DataFrames, builds an
instruction prompt, and forwards the prompt to an external LangChain agent.

The embedding mirrors the script as a pure function of its inputs:
the credential text field, the list of uploaded files, the question text
field, and the behaviour of the external collaborators (the CSV parser,
agent construction, and the agent answer call), each supplied as an
explicit parameter.  The rendered page is modelled as a list of render
events in emission order, plus the list of prompts passed to agent.run.
-/

namespace ChatWithCSV

/-- A pandas DataFrame as far as this script observes it: an ordered list
of column names and a list of rows (pd.read_csv result). -/
structure DataFrame where
  columns : List String
  rows : List (List String)
  deriving DecidableEq, Repr

/-- An uploaded file from st.file_uploader: its name and raw content.
The content is only ever consumed by the external parser parameter. -/
structure UploadedFile where
  name : String
  content : String
  deriving DecidableEq, Repr

/-- One Streamlit render event, in the order the script emits them. -/
inductive Render where
  | write (msg : String)
  | warning (msg : String)
  | info (msg : String)
  | errorBanner (msg : String)
  | successBanner (msg : String)
  | markdown (msg : String)
  | preview (fileName : String) (rows : List (List String))
  | uncaught (msg : String)
  deriving DecidableEq, Repr

/-- The observable outcome of one script run: the rendered events, the
prompts passed to agent.run, and whether the question input was rendered
(st.text_input at line 124, so the user can type or resubmit). -/
structure RunOutcome where
  renders : List Render
  agentCalls : List String
  questionFieldShown : Bool
  deriving DecidableEq, Repr

/-- df.head(3): the first three rows shown by st.dataframe (line 62). -/
def head3 (df : DataFrame) : List (List String) := df.rows.take 3

/-- The per-file loop of lines 55-62: parse each file with pd.read_csv,
accumulate (file.name, df) pairs in upload order, and emit a preview of
df.head(3) per successfully parsed file.  pd.read_csv is called with no
try/except, so a parse failure propagates: the loop stops, files after
the failing one are neither parsed nor previewed, and the error escapes
the whole block (modelled as Except.error). -/
def loadLoop (parse : UploadedFile → Except String DataFrame) :
    List UploadedFile → List Render × Except String (List (String × DataFrame))
  | [] => ([], Except.ok [])
  | f :: fs =>
    match parse f with
    | Except.error e => ([], Except.error e)
    | Except.ok df =>
      let rest := loadLoop parse fs
      (Render.preview f.name (head3 df) :: rest.1,
       rest.2.map (fun tl => (f.name, df) :: tl))

/-- df.columns[:15] of lines 67: the first 15 column names. -/
def cols_sample (df : DataFrame) : List String := df.columns.take 15

/-- One summary line of line 68: - File: {name} | Columns: {joined}. -/
def summary_line (name : String) (df : DataFrame) : String :=
  "- File: \x27" ++ name ++ "\x27 | Columns: " ++
    String.intercalate ", " (cols_sample df)

/-- Lines 65-69: one summary line per (name, df) pair, joined by newline. -/
def df_summary_text (named : List (String × DataFrame)) : String :=
  String.intercalate "\n" (named.map fun p => summary_line p.1 p.2)

/-- Python str.strip(): drop whitespace characters from both ends. -/
def pyStrip (s : String) : String :=
  String.mk (((s.data.dropWhile Char.isWhitespace).reverse.dropWhile
    Char.isWhitespace).reverse)

/-- The f-string literal of lines 72-102 before .strip(): fixed policy
text with df_summary_text interpolated in the ABOUT THE DATA section.
The literal starts with the newline after the opening quotes and ends
with the newline plus four spaces of indentation before the closing
quotes. -/
def system_prompt_raw (s : String) : String :=
  "\nYou are a strict data assistant working with one or more pandas DataFrames.\n\nGENERAL RULES\n- You MUST always inspect the DataFrames using Python / pandas before answering.\n- You are NOT allowed to answer from general knowledge or guesses.\n- Never respond with \"you can find it in column X\" or \"it is stored in the dataframe\".\n- Always return the actual values from the DataFrame.\n\nTEXT QUESTIONS (FAQs / policies, etc.)\n- For questions like \"what is the return policy\" or \"what is the warranty\", do this:\n  1. Look through all object/string columns for relevant rows\n     (for example using df[col].str.contains(keyword, case=False, na=False)).\n  2. If there is a column named \x27Answer\x27, \x27Policy\x27, \x27Description\x27, \x27Details\x27\n     or similar, treat that as the main answer column.\n  3. Return the cell text from the most relevant row(s).\n  4. If multiple rows are relevant, list them clearly (e.g. bullet points).\n\nNUMERIC QUESTIONS\n- For numeric questions (totals, counts, averages, etc.), use pandas operations\n  on the numeric columns (sum, mean, groupby, etc.) and give the computed result.\n\nABOUT THE DATA\nThe following DataFrames are loaded from CSV files:\n" ++ s ++ "\n\nANSWER STYLE\n- Answer in plain English.\n- Quote the actual text or numbers from the DataFrame.\n- Only mention file/column names briefly if helpful.\n    "

/-- system_prompt of lines 72-102: the raw f-string with .strip()
applied. -/
def system_prompt (s : String) : String := pyStrip (system_prompt_raw s)

/-- final_query of lines 132-136: the system prompt, the fixed bridging
line, then the users question verbatim. -/
def final_query (named : List (String × DataFrame)) (user_question : String) :
    String :=
  system_prompt (df_summary_text named) ++
    "\n\nNow answer this question using the DataFrames only:\n" ++
    user_question

/-- st.warning text of line 150. -/
def apiKeyWarning : String :=
  "Please enter your OpenAI API Key in the sidebar to proceed."

/-- st.info text of line 152. -/
def uploadPromptMsg : String := "Please upload your CSV files to start."

/-- st.error format of line 144 applied to the exception text. -/
def answerErrBanner (e : String) : String := "Error while answering: " ++ e

/-- st.error format of line 147 applied to the exception text. -/
def agentInitErrBanner (e : String) : String :=
  "Error initializing the AI agent: " ++ e

/-- st.write header of line 52. -/
def loadedHeader (files : List UploadedFile) : Render :=
  Render.write ("### Loaded " ++ toString files.length ++ " CSV file(s):")

/-- The whole script body from line 48 on, as a pure function.

Parameters model the external collaborators: parse is pd.read_csv on one
uploaded file; initAgent is the construction of ChatOpenAI plus
create_pandas_dataframe_agent (lines 106-119), which may raise; runAgent
is agent.run on the final query (line 137), which may raise.

Control flow mirrors the source: the line-48 guard uses Python
truthiness of the list and the string; inside it the load loop runs
(parse errors propagate uncaught), the summary and system prompt are
built, the outer try wraps agent construction, the question field is
shown, and a non-empty question (Python truthiness again, line 128)
triggers exactly one agent.run call whose failure is caught by the inner
except.  The elif of line 149 shows the API-key warning whenever the key
is empty, and the final else shows the upload prompt. -/
def runScript (parse : UploadedFile → Except String DataFrame)
    (initAgent : Except String Unit)
    (runAgent : String → Except String String)
    (openai_api_key : String) (uploaded_files : List UploadedFile)
    (user_question : String) : RunOutcome :=
  if uploaded_files ≠ [] ∧ openai_api_key ≠ "" then
    match loadLoop parse uploaded_files with
    | (previews, Except.error e) =>
        ⟨loadedHeader uploaded_files :: previews ++ [Render.uncaught e],
         [], false⟩
    | (previews, Except.ok named) =>
        match initAgent with
        | Except.error e =>
            ⟨loadedHeader uploaded_files :: previews
               ++ [Render.errorBanner (agentInitErrBanner e)], [], false⟩
        | Except.ok _ =>
            if user_question ≠ "" then
              match runAgent (final_query named user_question) with
              | Except.ok response =>
                  ⟨loadedHeader uploaded_files :: previews
                     ++ [Render.successBanner "Analysis complete!",
                         Render.write "### AI Response:",
                         Render.markdown response],
                   [final_query named user_question], true⟩
              | Except.error e =>
                  ⟨loadedHeader uploaded_files :: previews
                     ++ [Render.errorBanner (answerErrBanner e)],
                   [final_query named user_question], true⟩
            else
              ⟨loadedHeader uploaded_files :: previews, [], true⟩
  else if openai_api_key = "" then
    ⟨[Render.warning apiKeyWarning], [], false⟩
  else
    ⟨[Render.info uploadPromptMsg], [], false⟩

/-- Modelled from the claim of C2 (spec section 4.2, Final string): the
prompt as the claim words it, with the bridging line reading
"Now answer this question using the tables only:".  Kept separate from
final_query, which is translated from the source, so the two can be
compared. -/
def claimed_final_query (named : List (String × DataFrame))
    (user_question : String) : String :=
  system_prompt (df_summary_text named) ++ "\n\n" ++
    "Now answer this question using the tables only:\n" ++ user_question

/-! Concrete fixtures used by witness theorems. -/

/-- A well-formed sales table (spec Scenario A). -/
def dfSales : DataFrame :=
  ⟨["Date", "Region", "Amount"],
   [["2023-01-02", "EU", "100"], ["2023-01-03", "US", "250"],
    ["2023-01-04", "EU", "80"], ["2023-01-05", "APAC", "40"]]⟩

/-- A well-formed FAQ table (spec Scenario A). -/
def dfFaq : DataFrame :=
  ⟨["Question", "Answer"],
   [["what is the return policy", "Returns accepted within 30 days."]]⟩

/-- A table with 16 columns, to exercise the 15-column truncation. -/
def dfWide : DataFrame :=
  ⟨["c01", "c02", "c03", "c04", "c05", "c06", "c07", "c08", "c09", "c10",
    "c11", "c12", "c13", "c14", "c15", "c16"], []⟩

/-- Uploaded sales.csv. -/
def fileSales : UploadedFile :=
  ⟨"sales.csv", "Date,Region,Amount\n2023-01-02,EU,100"⟩

/-- Uploaded faq.csv. -/
def fileFaq : UploadedFile :=
  ⟨"faq.csv", "Question,Answer\nwhat is the return policy,Returns accepted within 30 days."⟩

/-- An uploaded file whose body is not well-formed CSV. -/
def fileBroken : UploadedFile := ⟨"broken.csv", "a,b\n1,2,3,4,5\n1"⟩

/-- The message the underlying parser raises on fileBroken; it does not
name the offending file. -/
def tokenizeErr : String :=
  "Error tokenizing data. C error: Expected 2 fields in line 2, saw 5"

/-- A concrete stand-in for pd.read_csv: parses the two well-formed
fixture files, fails on anything else with the parser message. -/
def parseFixture (f : UploadedFile) : Except String DataFrame :=
  if f.name = "sales.csv" then Except.ok dfSales
  else if f.name = "faq.csv" then Except.ok dfFaq
  else Except.error tokenizeErr

/-- Agent construction that succeeds. -/
def initAgentOk : Except String Unit := Except.ok ()

/-- An agent run that answers every prompt. -/
def runAgentOk (p : String) : Except String String :=
  Except.ok ("The return policy allows returns within 30 days. [" ++ p ++ "]")

/-- An agent run that raises on every prompt. -/
def runAgentBoom (_ : String) : Except String String :=
  Except.error "This model has been deprecated"

end ChatWithCSV

namespace ChatWithCSV

/-- Helper: left cancellation for string append, via the data lists. -/
theorem string_append_left_cancel {a b c : String} (h : a ++ b = a ++ c) :
    b = c := by
  apply String.ext
  have hd : a.data ++ b.data = a.data ++ c.data := by
    simpa using congrArg String.data h
  exact List.append_cancel_left hd

/-- Helper: a successful load pairs each uploaded file name, in upload
order, with the DataFrame parsed from it. -/
theorem loadLoop_ok_names (parse : UploadedFile → Except String DataFrame) :
    ∀ (files : List UploadedFile) (named : List (String × DataFrame)),
      (loadLoop parse files).2 = Except.ok named →
      named.map Prod.fst = files.map UploadedFile.name := by
  intro files
  induction files with
  | nil =>
    intro named h
    simp only [loadLoop] at h
    cases h
    simp
  | cons f fs ih =>
    intro named h
    simp only [loadLoop] at h
    cases hp : parse f with
    | error e => rw [hp] at h; simp at h
    | ok df =>
      rw [hp] at h
      simp only [Except.map] at h
      cases hr : (loadLoop parse fs).2 with
      | error e => rw [hr] at h; simp [Except.map] at h
      | ok tl =>
        rw [hr] at h
        simp only [Except.map] at h
        cases h
        simp [ih tl hr]

/-- Helper: every render emitted by the load loop is a preview of the
first three rows of some parsed DataFrame. -/
theorem loadLoop_previews (parse : UploadedFile → Except String DataFrame) :
    ∀ (files : List UploadedFile) (r : Render),
      r ∈ (loadLoop parse files).1 →
      ∃ n df, r = Render.preview n (head3 df) := by
  intro files
  induction files with
  | nil => intro r hr; simp [loadLoop] at hr
  | cons f fs ih =>
    intro r hr
    simp only [loadLoop] at hr
    cases hp : parse f with
    | error e => rw [hp] at hr; simp at hr
    | ok df =>
      rw [hp] at hr
      simp only [List.mem_cons] at hr
      rcases hr with rfl | hr
      · exact ⟨f.name, df, rfl⟩
      · exact ih r hr

/-- C1: agent.run is reachable only behind the line-48 guard, so it is
invoked only when the credential is non-empty and at least one uploaded
file has been parsed into a table; with an empty credential the API-key
warning is shown and no call is made, and with a credential but no files
the upload prompt is shown and no call is made. -/
theorem agent_gated_on_key_and_files
    (parse : UploadedFile → Except String DataFrame)
    (ia : Except String Unit) (ra : String → Except String String)
    (key : String) (files : List UploadedFile) (q : String) :
    ((runScript parse ia ra key files q).agentCalls ≠ [] →
      key ≠ "" ∧ files ≠ [] ∧
      ∃ named, (loadLoop parse files).2 = Except.ok named ∧ named ≠ []) ∧
    (key = "" →
      (runScript parse ia ra key files q).agentCalls = [] ∧
      Render.warning apiKeyWarning ∈ (runScript parse ia ra key files q).renders) ∧
    (key ≠ "" → files = [] →
      (runScript parse ia ra key files q).agentCalls = [] ∧
      Render.info uploadPromptMsg ∈ (runScript parse ia ra key files q).renders) := by
  refine ⟨?_, ?_, ?_⟩
  · intro hcalls
    by_cases hf : files = []
    · refine absurd ?_ hcalls
      simp only [runScript, hf]
      simp only [ne_eq, not_true_eq_false, false_and, if_false]
      split <;> rfl
    by_cases hk : key = ""
    · exact absurd (by simp [runScript, hk]) hcalls
    refine ⟨hk, hf, ?_⟩
    rcases hload : loadLoop parse files with ⟨previews, res⟩
    cases res with
    | error e =>
      exfalso
      apply hcalls
      unfold runScript
      rw [if_pos ⟨hf, hk⟩, hload]
    | ok named =>
      refine ⟨named, by simp [hload], ?_⟩
      intro hnil
      subst hnil
      have := loadLoop_ok_names parse files [] (by simp [hload])
      simp at this
      exact hf this
  · intro hk
    subst hk
    constructor <;> simp [runScript]
  · intro hk hf
    subst hf
    constructor <;> simp [runScript, hk]

theorem agent_gated_witness :
    (runScript parseFixture initAgentOk runAgentOk "" [fileFaq] "q").agentCalls = [] ∧
    Render.warning apiKeyWarning ∈
      (runScript parseFixture initAgentOk runAgentOk "" [fileFaq] "q").renders :=
  (agent_gated_on_key_and_files parseFixture initAgentOk runAgentOk
    "" [fileFaq] "q").2.1 rfl

/-- C2 (amended): in a ready session (non-empty credential, non-empty
uploads all parsed, successful agent construction, non-empty question)
exactly one agent.run call is made, and its prompt is the system prompt
(policy text with the per-table summary embedded in its ABOUT THE DATA
section) followed by the bridging line
"\n\nNow answer this question using the DataFrames only:\n" followed by
the literal question.  The source bridging line says DataFrames, not
tables as the claim words it. -/
theorem one_agent_call_with_final_query
    (parse : UploadedFile → Except String DataFrame)
    (ra : String → Except String String)
    (key : String) (files : List UploadedFile) (q : String)
    (previews : List Render) (named : List (String × DataFrame))
    (hkey : key ≠ "") (hfiles : files ≠ []) (hq : q ≠ "")
    (hload : loadLoop parse files = (previews, Except.ok named)) :
    (runScript parse (Except.ok ()) ra key files q).agentCalls
      = [system_prompt (df_summary_text named) ++
          "\n\nNow answer this question using the DataFrames only:\n" ++ q] := by
  have hmain : (runScript parse (Except.ok ()) ra key files q).agentCalls
      = [final_query named q] := by
    unfold runScript
    rw [if_pos ⟨hfiles, hkey⟩, hload]
    cases h : ra (final_query named q) <;> simp [hq, h]
  rw [hmain]
  rfl

theorem one_agent_call_witness :
    (runScript parseFixture (Except.ok ()) runAgentOk "sk-key"
        [fileSales, fileFaq] "what is the return policy").agentCalls
      = [system_prompt
            (df_summary_text [("sales.csv", dfSales), ("faq.csv", dfFaq)]) ++
          "\n\nNow answer this question using the DataFrames only:\n" ++
          "what is the return policy"] :=
  one_agent_call_with_final_query parseFixture runAgentOk "sk-key"
    [fileSales, fileFaq] "what is the return policy"
    [Render.preview "sales.csv" (head3 dfSales),
     Render.preview "faq.csv" (head3 dfFaq)]
    [("sales.csv", dfSales), ("faq.csv", dfFaq)]
    (by decide) (by decide) (by decide) rfl

/-- C2 counterexample: at a concrete ready input the prompt the code
builds differs from the prompt the claim describes, because the code
bridging line reads "using the DataFrames only" while the claim quotes
"using the tables only". -/
theorem final_query_ne_claimed :
    final_query [("faq.csv", dfFaq)] "what is the return policy"
      ≠ claimed_final_query [("faq.csv", dfFaq)] "what is the return policy" := by
  intro h
  unfold final_query claimed_final_query at h
  simp only [String.append_assoc] at h
  have h2 := string_append_left_cancel h
  exact absurd h2 (by decide)

/-- C3: at the failing input (well-formed sales.csv, then a malformed
file, then well-formed faq.csv) the load loop previews only the file
before the malformed one, produces no tables at all, and propagates the
parser message, which does not name the offending file; the script run
renders the propagated exception and never reaches the agent. -/
theorem load_aborts_on_malformed :
    loadLoop parseFixture [fileSales, fileBroken, fileFaq]
      = ([Render.preview "sales.csv" (head3 dfSales)],
         Except.error tokenizeErr) ∧
    (runScript parseFixture initAgentOk runAgentOk "sk-key"
        [fileSales, fileBroken, fileFaq] "q").renders
      = [loadedHeader [fileSales, fileBroken, fileFaq],
         Render.preview "sales.csv" (head3 dfSales),
         Render.uncaught tokenizeErr] ∧
    (runScript parseFixture initAgentOk runAgentOk "sk-key"
        [fileSales, fileBroken, fileFaq] "q").agentCalls = [] :=
  ⟨rfl, rfl, rfl⟩

/-- C4: the summary column sample is df.columns[:15]: for a table with
at most 15 columns it is the full column list in order; for more than 15
columns it has exactly 15 entries and agrees with the original column
list at every index below 15. -/
theorem cols_sample_first15 (df : DataFrame) :
    (df.columns.length ≤ 15 → cols_sample df = df.columns) ∧
    (15 < df.columns.length →
      (cols_sample df).length = 15 ∧
      ∀ i, i < 15 → (cols_sample df)[i]? = df.columns[i]?) := by
  constructor
  · intro h
    simpa [cols_sample] using List.take_of_length_le h
  · intro h
    constructor
    · simp [cols_sample]
      omega
    · intro i hi
      simp [cols_sample, List.getElem?_take_of_lt hi]

theorem cols_sample_first15_witness :
    cols_sample dfFaq = dfFaq.columns ∧
    (cols_sample dfWide).length = 15 ∧
    (cols_sample dfWide)[14]? = dfWide.columns[14]? :=
  ⟨(cols_sample_first15 dfFaq).1 (by decide),
   ((cols_sample_first15 dfWide).2 (by decide)).1,
   ((cols_sample_first15 dfWide).2 (by decide)).2 14 (by decide)⟩

/-- C5: prompt construction is a pure function of the loaded tables and
the question, so equal inputs give an identical final string. -/
theorem final_query_deterministic (n1 n2 : List (String × DataFrame))
    (q1 q2 : String) (hn : n1 = n2) (hq : q1 = q2) :
    final_query n1 q1 = final_query n2 q2 := by
  rw [hn, hq]

theorem final_query_deterministic_witness :
    final_query [("faq.csv", dfFaq)] "what is the return policy"
      = final_query [("faq.csv", dfFaq)] "what is the return policy" :=
  final_query_deterministic [("faq.csv", dfFaq)] [("faq.csv", dfFaq)]
    "what is the return policy" "what is the return policy" rfl rfl

/-- C6: when agent.run raises, the line-143 except catches it: the run
ends with an error banner carrying the raised message, no exception
escapes, and the question field is still rendered so the user can
resubmit. -/
theorem agent_error_caught
    (parse : UploadedFile → Except String DataFrame)
    (ra : String → Except String String)
    (key : String) (files : List UploadedFile) (q : String)
    (previews : List Render) (named : List (String × DataFrame)) (e : String)
    (hkey : key ≠ "") (hfiles : files ≠ []) (hq : q ≠ "")
    (hload : loadLoop parse files = (previews, Except.ok named))
    (herr : ra (final_query named q) = Except.error e) :
    Render.errorBanner (answerErrBanner e) ∈
      (runScript parse (Except.ok ()) ra key files q).renders ∧
    (∀ m, Render.uncaught m ∉
      (runScript parse (Except.ok ()) ra key files q).renders) ∧
    (runScript parse (Except.ok ()) ra key files q).questionFieldShown = true := by
  have hout : runScript parse (Except.ok ()) ra key files q
      = ⟨loadedHeader files ::
           (previews ++ [Render.errorBanner (answerErrBanner e)]),
         [final_query named q], true⟩ := by
    unfold runScript
    rw [if_pos ⟨hfiles, hkey⟩, hload]
    simp [hq, herr]
  rw [hout]
  refine ⟨by simp, ?_, rfl⟩
  intro m hm
  simp only [List.mem_cons, List.mem_append, List.mem_singleton] at hm
  rcases hm with h1 | h2 | h3
  · simp [loadedHeader] at h1
  · have hp : (loadLoop parse files).1 = previews := by rw [hload]
    obtain ⟨n, df, heq⟩ :=
      loadLoop_previews parse files (Render.uncaught m) (hp ▸ h2)
    simp at heq
  · simp at h3

theorem agent_error_caught_witness :
    Render.errorBanner (answerErrBanner "This model has been deprecated") ∈
      (runScript parseFixture (Except.ok ()) runAgentBoom "sk-key" [fileFaq]
        "hi").renders :=
  (agent_error_caught parseFixture runAgentBoom "sk-key" [fileFaq] "hi"
    [Render.preview "faq.csv" (head3 dfFaq)] [("faq.csv", dfFaq)]
    "This model has been deprecated"
    (by decide) (by decide) (by decide) rfl rfl).1

/-- C7: when every uploaded file parses, the loader yields one table per
file in upload order, each named after its file; zero uploads yield the
empty table list. -/
theorem loader_one_table_per_file
    (parse : UploadedFile → Except String DataFrame) :
    loadLoop parse [] = ([], Except.ok []) ∧
    ∀ files : List UploadedFile,
      (∀ f ∈ files, ∃ df, parse f = Except.ok df) →
      ∃ named, (loadLoop parse files).2 = Except.ok named ∧
        named.length = files.length ∧
        named.map Prod.fst = files.map UploadedFile.name := by
  refine ⟨rfl, ?_⟩
  intro files
  induction files with
  | nil => exact fun _ => ⟨[], rfl, rfl, rfl⟩
  | cons f fs ih =>
    intro h
    obtain ⟨df, hdf⟩ := h f (List.mem_cons_self f fs)
    obtain ⟨tl, htl, hlen, hmap⟩ :=
      ih (fun g hg => h g (List.mem_cons_of_mem f hg))
    refine ⟨(f.name, df) :: tl, ?_, by simp [hlen], by simp [hmap]⟩
    simp only [loadLoop, hdf]
    rw [htl]
    rfl

theorem loader_one_table_per_file_witness :
    ∃ named, (loadLoop parseFixture [fileSales, fileFaq]).2 = Except.ok named ∧
      named.length = [fileSales, fileFaq].length ∧
      named.map Prod.fst = [fileSales, fileFaq].map UploadedFile.name :=
  (loader_one_table_per_file parseFixture).2 [fileSales, fileFaq]
    (by
      intro f hf
      rcases List.mem_cons.mp hf with rfl | hf
      · exact ⟨dfSales, rfl⟩
      · rcases List.mem_cons.mp hf with rfl | hf
        · exact ⟨dfFaq, rfl⟩
        · cases hf)

/-- Helper: any preview render appearing in a script run was emitted by
the load loop. -/
theorem renders_previews
    (parse : UploadedFile → Except String DataFrame)
    (ia : Except String Unit) (ra : String → Except String String)
    (key : String) (files : List UploadedFile) (q : String)
    (n : String) (rows : List (List String)) :
    Render.preview n rows ∈ (runScript parse ia ra key files q).renders →
    Render.preview n rows ∈ (loadLoop parse files).1 := by
  unfold runScript
  by_cases hg : files ≠ [] ∧ key ≠ ""
  · rw [if_pos hg]
    rcases hl : loadLoop parse files with ⟨previews, res⟩
    cases res with
    | error e =>
      intro hm
      simp [loadedHeader] at hm
      exact hm
    | ok named =>
      cases ia with
      | error e =>
        intro hm
        simp [loadedHeader] at hm
        exact hm
      | ok u =>
        by_cases hq : q ≠ ""
        · cases hr : ra (final_query named q) with
          | ok response =>
            intro hm
            simp [loadedHeader, hq, hr] at hm
            exact hm
          | error e =>
            intro hm
            simp [loadedHeader, hq, hr] at hm
            exact hm
        · intro hm
          simp [loadedHeader, hq] at hm
          exact hm
  · rw [if_neg hg]
    intro hm
    split at hm <;> simp at hm

/-- C8: every preview rendered in any run shows at most 3 rows of its
table; in a ready session a successful answer renders the success banner
and the returned text, and a failed answer renders an error banner
carrying the raw error message. -/
theorem output_surface
    (parse : UploadedFile → Except String DataFrame)
    (ia : Except String Unit) (ra : String → Except String String)
    (key : String) (files : List UploadedFile) (q : String) :
    (∀ n rows, Render.preview n rows ∈
        (runScript parse ia ra key files q).renders → rows.length ≤ 3) ∧
    (∀ previews named response,
      key ≠ "" → files ≠ [] → q ≠ "" →
      loadLoop parse files = (previews, Except.ok named) →
      ra (final_query named q) = Except.ok response →
      Render.successBanner "Analysis complete!" ∈
        (runScript parse (Except.ok ()) ra key files q).renders ∧
      Render.markdown response ∈
        (runScript parse (Except.ok ()) ra key files q).renders) ∧
    (∀ previews named e,
      key ≠ "" → files ≠ [] → q ≠ "" →
      loadLoop parse files = (previews, Except.ok named) →
      ra (final_query named q) = Except.error e →
      Render.errorBanner (answerErrBanner e) ∈
        (runScript parse (Except.ok ()) ra key files q).renders) := by
  refine ⟨?_, ?_, ?_⟩
  · intro n rows hm
    obtain ⟨n2, df, heq⟩ := loadLoop_previews parse files _
      (renders_previews parse ia ra key files q n rows hm)
    injection heq with e1 e2
    subst e2
    simp [head3]
  · intro previews named response hkey hfiles hq hload hresp
    have hout : runScript parse (Except.ok ()) ra key files q
        = ⟨loadedHeader files ::
             (previews ++ [Render.successBanner "Analysis complete!",
               Render.write "### AI Response:", Render.markdown response]),
           [final_query named q], true⟩ := by
      unfold runScript
      rw [if_pos ⟨hfiles, hkey⟩, hload]
      simp [hq, hresp]
    rw [hout]
    constructor <;> simp
  · intro previews named e hkey hfiles hq hload herr
    have hout : runScript parse (Except.ok ()) ra key files q
        = ⟨loadedHeader files ::
             (previews ++ [Render.errorBanner (answerErrBanner e)]),
           [final_query named q], true⟩ := by
      unfold runScript
      rw [if_pos ⟨hfiles, hkey⟩, hload]
      simp [hq, herr]
    rw [hout]
    simp

theorem output_surface_witness :
    Render.successBanner "Analysis complete!" ∈
      (runScript parseFixture (Except.ok ()) runAgentOk "sk-key" [fileFaq]
        "hi").renders ∧
    Render.markdown
        ("The return policy allows returns within 30 days. [" ++
          final_query [("faq.csv", dfFaq)] "hi" ++ "]") ∈
      (runScript parseFixture (Except.ok ()) runAgentOk "sk-key" [fileFaq]
        "hi").renders :=
  (output_surface parseFixture (Except.ok ()) runAgentOk "sk-key" [fileFaq]
      "hi").2.1
    [Render.preview "faq.csv" (head3 dfFaq)] [("faq.csv", dfFaq)]
    ("The return policy allows returns within 30 days. [" ++
      final_query [("faq.csv", dfFaq)] "hi" ++ "]")
    (by decide) (by decide) (by decide) rfl rfl

/-- C9: with an empty credential and no uploaded files the elif of line
149 fires first, so only the API-key warning is rendered, not the
upload prompt. -/
theorem key_warning_wins_when_both_missing
    (parse : UploadedFile → Except String DataFrame)
    (ia : Except String Unit) (ra : String → Except String String)
    (q : String) :
    (runScript parse ia ra "" [] q).renders = [Render.warning apiKeyWarning] ∧
    Render.info uploadPromptMsg ∉ (runScript parse ia ra "" [] q).renders := by
  constructor
  · simp [runScript]
  · simp [runScript]

/-- C10: the line-128 check is Python string truthiness, so with the
agent constructed exactly the empty question makes no agent call and
every non-empty question, whitespace-only ones included, makes one. -/
theorem question_truthiness
    (parse : UploadedFile → Except String DataFrame)
    (ra : String → Except String String)
    (key : String) (files : List UploadedFile) (q : String)
    (previews : List Render) (named : List (String × DataFrame))
    (hkey : key ≠ "") (hfiles : files ≠ [])
    (hload : loadLoop parse files = (previews, Except.ok named)) :
    (runScript parse (Except.ok ()) ra key files q).agentCalls
      = if q = "" then [] else [final_query named q] := by
  unfold runScript
  rw [if_pos ⟨hfiles, hkey⟩, hload]
  by_cases hq : q = ""
  · simp [hq]
  · cases h : ra (final_query named q) <;> simp [hq, h]

theorem question_truthiness_witness :
    (runScript parseFixture (Except.ok ()) runAgentOk "sk-key" [fileFaq]
        "   ").agentCalls
      = [final_query [("faq.csv", dfFaq)] "   "] := by
  have h := question_truthiness parseFixture runAgentOk "sk-key" [fileFaq]
    "   " [Render.preview "faq.csv" (head3 dfFaq)] [("faq.csv", dfFaq)]
    (by decide) (by decide) rfl
  rw [if_neg (by decide : ¬("   " : String) = "")] at h
  exact h
end ChatWithCSV
